import Mathlib

/-!
Shallow embedding of `phtorg` (`src/phtorg/organizer.py`): the timestamp
resolver, the deterministic filename planner, and the plan aggregator of
`PhotoOrganizer`, together with theorems checking the natural-language
specification against this embedding.

Modelling conventions:
* Python strings are modelled by `String`; slicing, `replace`, `lower` are
  by code points, mirroring Python `str` semantics, via `List Char`.
* `pathlib.Path` values for source photos are modelled by `Photo`
  (parent-directory components plus file name); destination paths are
  component lists (`dst_dir / str(year) / filename`).
* `datetime` values are `DT`: a civil time plus an optional timezone name
  (`str(dt.tzinfo)` in Python).  Timezone-database arithmetic
  (`fromtimestamp`, `astimezone`) is external to the repository, so the
  civil part of those conversions lives in the environment `Env`, while
  the timezone attachment itself is modelled concretely.
* Filesystem, EXIF decoding (PIL), media-container decoding (pymediainfo)
  and SHA-1 (hashlib) are external collaborators: `Env` carries the file
  bytes, the hex digest function, the stat mtime (as a civil time in the
  configured zone), the decoded EXIF tag dictionary and the MediaInfo
  general track.  Decoder results are `Except String` values: an `.error`
  models an exception raised by the collaborator.
* Python exceptions are modelled by `Except String`; an `assert` failure
  or `raise` becomes an `.error` carrying the message.
-/

/-- `str(PhotoOrganizer.timezone)`: the single configured timezone,
`pytz.timezone('America/Vancouver')` (organizer.py line 76). -/
def tzName : String := "America/Vancouver"

/-- Civil (wall-clock) date and time fields of a Python `datetime`. -/
structure Civil where
  year : Nat
  month : Nat
  day : Nat
  hour : Nat
  minute : Nat
  second : Nat
deriving DecidableEq

/-- A Python `datetime`: civil fields plus `str(tzinfo)` when aware
(`none` models a naive datetime). -/
structure DT where
  civil : Civil
  tz : Option String
deriving DecidableEq

/-- A source file path: the components of its parent directory plus its
file name (models the `pathlib.Path` operations the code uses:
`suffix`, `parent.name`). -/
structure Photo where
  parent : List String
  name : String
deriving DecidableEq

/-- Python `s[:n]` on a `str` (by code points). -/
def strTake (s : String) (n : Nat) : String := ⟨s.toList.take n⟩

/-- Python `s.lower()` (restricted to the ASCII extensions the code
compares against). -/
def strLower (s : String) : String := ⟨s.toList.map Char.toLower⟩

/-- Python `s.replace(a, b, n)` for single-character needles: replace the
first `n` occurrences of `a` by `b`. -/
def replaceN (a b : Char) : Nat → List Char → List Char
  | _, [] => []
  | 0, cs => cs
  | Nat.succ n, c :: cs =>
    if c = a then b :: replaceN a b n cs else c :: replaceN a b (n + 1) cs

/-- Split a character list at its first `'.'`: returns the characters
before it and after it. -/
def splitAtDot : List Char → Option (List Char × List Char)
  | [] => none
  | c :: cs =>
    if c = '.' then some ([], cs)
    else (splitAtDot cs).map (fun p => (c :: p.1, p.2))

/-- `pathlib.PurePath.suffix` of a file name: `name[i:]` where `i` is the
index of the last `'.'`, provided `0 < i < len(name) - 1`, else `""`. -/
def pathSuffix (nm : String) : String :=
  match splitAtDot nm.toList.reverse with
  | some (a, b) => if a ≠ [] ∧ b ≠ [] then ⟨'.' :: a.reverse⟩ else ""
  | none => ""

/-- `photo.parent.name`: the last component of the parent directory
(`""` at a filesystem root, as in pathlib). -/
def parentName (p : Photo) : String := p.parent.getLastD ""

/-- `PhotoOrganizer.pillow_exts` (organizer.py line 72). -/
def pillow_exts : List String := [".jpg", ".jpeg", ".heic"]

/-- `PhotoOrganizer.mediainfo_exts` (organizer.py line 73). -/
def mediainfo_exts : List String := [".mov", ".mp4", ".m4v"]

/-- `PhotoOrganizer.screenshot_exts` (organizer.py line 74). -/
def screenshot_exts : List String := [".png", ".gif", ".bmp", ".webp"]

/-- `PhotoOrganizer.allowed_exts`: union of the three extension sets
(organizer.py line 75); membership-equivalent list concatenation. -/
def allowed_exts : List String := pillow_exts ++ mediainfo_exts ++ screenshot_exts

/-- Numeric value of a decimal digit character. -/
def digitVal (c : Char) : Nat := c.toNat - '0'.toNat

/-- Parse exactly two decimal digits. -/
def d2 (a b : Char) : Option Nat :=
  if a.isDigit ∧ b.isDigit then some (digitVal a * 10 + digitVal b) else none

/-- Parse exactly four decimal digits. -/
def d4 (a b c d : Char) : Option Nat :=
  if a.isDigit ∧ b.isDigit ∧ c.isDigit ∧ d.isDigit then
    some (digitVal a * 1000 + digitVal b * 100 + digitVal c * 10 + digitVal d)
  else none

/-- Parse an ISO-8601 UTC-offset tail (`dateutil` styles `Z`, `±HH`,
`±HHMM`, `±HH:MM`); `some none` means no offset (naive), `some (some z)`
an aware result whose `str(tzinfo)` is `z`, `none` a parse failure. -/
def parseOffset : List Char → Option (Option String)
  | [] => some none
  | ['Z'] => some (some "UTC")
  | [s, a, b] =>
    if (s = '+' ∨ s = '-') ∧ a.isDigit ∧ b.isDigit then
      some (some ⟨[s, a, b]⟩)
    else none
  | [s, a, b, c, d] =>
    if (s = '+' ∨ s = '-') ∧ a.isDigit ∧ b.isDigit ∧ c.isDigit ∧ d.isDigit then
      some (some ⟨[s, a, b, c, d]⟩)
    else none
  | [s, a, b, ':', c, d] =>
    if (s = '+' ∨ s = '-') ∧ a.isDigit ∧ b.isDigit ∧ c.isDigit ∧ d.isDigit then
      some (some ⟨[s, a, b, ':', c, d]⟩)
    else none
  | _ => none

/-- `dateutil.parser.isoparse` on the fixed-width forms the organizer
produces (`YYYY-MM-DD`, optionally a one-character separator followed by
`HH:MM:SS` and an optional UTC offset).  Out-of-range fields or other
shapes fail (`None` models the raised `ValueError`). -/
def isoparse (s : String) : Option DT :=
  match s.toList with
  | y1 :: y2 :: y3 :: y4 :: '-' :: mo1 :: mo2 :: '-' :: da1 :: da2 :: rest =>
    match d4 y1 y2 y3 y4, d2 mo1 mo2, d2 da1 da2 with
    | some y, some mo, some da =>
      if 1 ≤ mo ∧ mo ≤ 12 ∧ 1 ≤ da ∧ da ≤ 31 then
        match rest with
        | [] => some ⟨⟨y, mo, da, 0, 0, 0⟩, none⟩
        | _ :: h1 :: h2 :: ':' :: mi1 :: mi2 :: ':' :: se1 :: se2 :: tzr =>
          match d2 h1 h2, d2 mi1 mi2, d2 se1 se2 with
          | some h, some mi, some se =>
            if h ≤ 23 ∧ mi ≤ 59 ∧ se ≤ 59 then
              match parseOffset tzr with
              | some tzo => some ⟨⟨y, mo, da, h, mi, se⟩, tzo⟩
              | none => none
            else none
          | _, _, _ => none
        | _ => none
      else none
    | _, _, _ => none
  | _ => none

/-- Python truthiness filter on an optional string: `None` and `""` are
falsy. -/
def truthy (o : Option String) : Option String :=
  match o with
  | some s => if s = "" then none else some s
  | none => none

/-- Python `a or b` on optional strings (`None` models Python `None`):
returns `a` when truthy, else `b` (which may itself be falsy). -/
def pyOr (a b : Option String) : Option String :=
  match a with
  | some s => if s = "" then b else some s
  | none => b

/-- The dataclass `PhotoInfo` (organizer.py lines 28-46). -/
structure PhotoInfo where
  path : Photo
  datetime : Option DT
  datetime_source : Option String
  errors : List String
deriving DecidableEq

/-- The dataclass `RenameTask` (organizer.py lines 49-67); the
destination is a component list `dst_dir / str(year) / filename`. -/
structure RenameTask where
  photo_info : PhotoInfo
  destination : List String
deriving DecidableEq

/-- The fields of `MediaInfo.parse(photo).general_tracks[0]` the code
reads; `none` models a `None` attribute. -/
structure GeneralTrack where
  comapplequicktimecreationdate : Option String
  encoded_date : Option String
  tagged_date : Option String
deriving DecidableEq

/-- The external world of one run: file contents, the SHA-1 hex digest
function, stat mtimes (as the civil time `datetime.fromtimestamp`
produces in the configured zone), decoder outputs, the civil part of
timezone-database conversions (`astimezone`), and the destination
filesystem predicates used by the aggregator.  `.error` values model
exceptions raised inside the collaborator. -/
structure Env where
  content : Photo → List UInt8
  sha1Hex : List UInt8 → String
  mtimeCivil : Photo → Civil
  exifTags : Photo → Except String (List (String × String))
  mediaGeneral : Photo → Except String GeneralTrack
  toLocalCivil : DT → Civil
  pathExists : List String → Bool
  samefile : List String → Photo → Bool

/-- `PhotoOrganizer.parse_timestamp` (organizer.py lines 103-105):
`datetime.fromtimestamp(ts, tz=self.timezone)` — always aware, carrying
the configured timezone; the civil fields come from the environment. -/
def parse_timestamp (env : Env) (photo : Photo) : DT :=
  ⟨env.mtimeCivil photo, some tzName⟩

/-- `PhotoOrganizer.is_screenshot` (organizer.py lines 107-108). -/
def is_screenshot (photo : Photo) : Bool :=
  decide (strLower (pathSuffix photo.name) ∈ screenshot_exts) ||
    decide (parentName photo = "Screenshots")

/-- `PhotoOrganizer.get_info_from_file` (organizer.py lines 110-112). -/
def get_info_from_file (env : Env) (photo : Photo) : PhotoInfo :=
  ⟨photo, some (parse_timestamp env photo), some "mtime", []⟩

/-- `pytz` `timezone.localize(dt)`: attaches the configured zone to a
naive datetime; raises `ValueError` on an already-aware one. -/
def tz_localize (d : DT) : Except String DT :=
  match d.tz with
  | none => .ok ⟨d.civil, some tzName⟩
  | some _ => .error "ValueError: Not naive datetime (tzinfo is already set)"

/-- The EXIF string fix-up of organizer.py line 142:
`_exif_dt[:19].replace(':', '-', 2)`. -/
def exifFix (s : String) : String :=
  ⟨replaceN ':' '-' 2 (s.toList.take 19)⟩

/-- `dict.get` on the decoded EXIF tag dictionary (association list in
insertion order; the Python dict has unique keys). -/
def lookupTag : List (String × String) → String → Option String
  | [], _ => none
  | (k, v) :: rest, key => if k = key then some v else lookupTag rest key

/-- Organizer line 133: `exif.get('DateTimeOriginal') or
exif.get('DateTimeDigitized') or exif.get('DateTime')` with Python `or`
truthiness. -/
def chainSelect (exif : List (String × String)) : Option String :=
  pyOr (lookupTag exif "DateTimeOriginal")
    (pyOr (lookupTag exif "DateTimeDigitized") (lookupTag exif "DateTime"))

/-- `PhotoOrganizer.get_info_from_pillow` (organizer.py lines 114-144).
The construction of the `exif` dict from PIL (lines 115-123) is the
environment's `exifTags`; an empty dict models `if not exif`.  A parse
failure or a `localize` failure is a raised exception (`.error`). -/
def get_info_from_pillow (env : Env) (photo : Photo) : Except String PhotoInfo :=
  match env.exifTags photo with
  | .error e => .error e
  | .ok exif =>
    if exif = [] then
      let info := get_info_from_file env photo
      .ok { info with errors := info.errors ++ ["File is EXIF-compatible but no EXIF found"] }
    else
      match chainSelect exif with
      | none =>
        let info := get_info_from_file env photo
        .ok { info with errors := info.errors ++ ["EXIF exists but no datetime found"] }
      | some s0 =>
        match isoparse (exifFix s0) with
        | none => .error ("ValueError: Invalid isoformat string: " ++ exifFix s0)
        | some d =>
          match tz_localize d with
          | .error e => .error e
          | .ok dt => .ok ⟨photo, some dt, some "EXIF", []⟩

/-- `datetime.astimezone(self.timezone)` composed with the naive-is-UTC
rule of organizer.py lines 162-167: the civil fields of the conversion
come from the environment; the result always carries the configured
timezone. -/
def media_local (env : Env) (d : DT) : DT :=
  match d.tz with
  | some _ => ⟨env.toLocalCivil d, some tzName⟩
  | none => ⟨env.toLocalCivil ⟨d.civil, some "UTC"⟩, some tzName⟩

/-- Python `s.removeprefix('UTC')`. -/
def removePreUTC (s : String) : String :=
  if s.startsWith "UTC" then ⟨s.toList.drop 3⟩ else s

/-- Python `s.removesuffix('UTC')`. -/
def removeSufUTC (s : String) : String :=
  if s.endsWith "UTC" then ⟨s.toList.take (s.toList.length - 3)⟩ else s

/-- `PhotoOrganizer.get_info_from_mediainfo` (organizer.py lines
146-168).  The walrus conditions use Python truthiness; the failed
`assert` on the UTC marking is a raised `AssertionError`. -/
def get_info_from_mediainfo (env : Env) (photo : Photo) : Except String PhotoInfo :=
  match env.mediaGeneral photo with
  | .error e => .error e
  | .ok g =>
    match truthy g.comapplequicktimecreationdate with
    | some s =>
      match isoparse s with
      | none => .error ("ValueError: Invalid isoformat string: " ++ s)
      | some d => .ok ⟨photo, some (media_local env d), some "MediaInfo", []⟩
    | none =>
      match truthy (pyOr g.encoded_date g.tagged_date) with
      | some s =>
        if s.startsWith "UTC" ∨ s.endsWith "UTC" then
          match isoparse ((removeSufUTC (removePreUTC s)).trim) with
          | none =>
            .error ("ValueError: Invalid isoformat string: " ++ (removeSufUTC (removePreUTC s)).trim)
          | some d => .ok ⟨photo, some (media_local env d), some "MediaInfo", []⟩
        else .error "AssertionError: encoded_date/tagged_date should have UTC marking"
      | none =>
        let info := get_info_from_file env photo
        .ok { info with errors := info.errors ++ ["Cannot extract datetime from MediaInfo"] }

/-- The validation block of `PhotoOrganizer.get_info` (organizer.py
lines 95-99): for a non-`None` datetime, assert an existing timezone and
`str(tzinfo) == str(self.timezone)`. -/
def validate_info (info : PhotoInfo) : Except String PhotoInfo :=
  match info.datetime with
  | none => .ok info
  | some d =>
    match d.tz with
    | none => .error "AssertionError: timezone does not exist"
    | some z => if z = tzName then .ok info else .error "AssertionError: timezone does not match"

/-- Propagate a raised exception around the validation, as Python
control flow does. -/
def validate_chain (r : Except String PhotoInfo) : Except String PhotoInfo :=
  match r with
  | .error e => .error e
  | .ok info => validate_info info

/-- `PhotoOrganizer.get_info` (organizer.py lines 84-101): extension
dispatch, then validation. -/
def get_info (env : Env) (photo : Photo) : Except String PhotoInfo :=
  validate_chain
    (if strLower (pathSuffix photo.name) ∈ pillow_exts then get_info_from_pillow env photo
     else if strLower (pathSuffix photo.name) ∈ mediainfo_exts then get_info_from_mediainfo env photo
     else if is_screenshot photo then .ok (get_info_from_file env photo)
     else .error ("RuntimeError: Unexpected extension: " ++ photo.name))

/-- Modelled from the spec: the module `phtorg.constants` is not under
`src/`.  Per spec section 4.3 the default filename prefix
(`constants.DEFAULT_PREFIX`) is `"IMG_"`. -/
def defaultPfx : String := "IMG_"

/-- Modelled from the spec: the module `phtorg.constants` is not under
`src/`.  Per spec section 4.3 the screenshot prefix
(`constants.SCREENSHOT_PREFIX`) is "a distinct screenshot prefix",
i.e. some fixed string different from `"IMG_"`. -/
def screenshotPfx : String := "SS_"

/-- Zero-pad a natural number to the given width (`strftime` field). -/
def padNum (w n : Nat) : String :=
  ⟨List.replicate (w - (toString n).length) '0'⟩ ++ toString n

/-- `dt.strftime('%Y%m%d_%H%M%S')` (organizer.py line 185). -/
def strftimeCompact (c : Civil) : String :=
  padNum 4 c.year ++ padNum 2 c.month ++ padNum 2 c.day ++ "_" ++
    padNum 2 c.hour ++ padNum 2 c.minute ++ padNum 2 c.second

/-- `PhotoOrganizer.get_deterministic_filename` (organizer.py lines
183-193): timestamp, first 7 hex chars of the streamed SHA-1 of the file
bytes, lowercased original extension.  The chunked SHA-1 of hashlib is
the environment's `sha1Hex` applied to the full byte content. -/
def get_deterministic_filename (env : Env) (photo : Photo) (dt : DT) (pfx : String) : String :=
  pfx ++ strftimeCompact dt.civil ++ "_" ++ strTake (env.sha1Hex (env.content photo)) 7 ++
    strLower (pathSuffix photo.name)

/-- The prefix choice of organizer.py lines 200-203. -/
def pfxFor (photo : Photo) : String :=
  if is_screenshot photo then screenshotPfx else defaultPfx

/-- `PhotoOrganizer._get_rename_task` (organizer.py lines 195-208):
resolve, assert a datetime, choose the prefix, build
`dst_dir / str(year) / filename`. -/
def _get_rename_task (env : Env) (dst_dir : List String) (photo : Photo) :
    Except String RenameTask :=
  match get_info env photo with
  | .error e => .error e
  | .ok info =>
    match info.datetime with
    | none => .error "AssertionError: cannot rename without datetime"
    | some dt =>
      .ok ⟨info, dst_dir ++ [toString dt.civil.year,
        get_deterministic_filename env photo dt (pfxFor photo)]⟩

/-- The two output collections of a run (`self.rename_tasks`,
`self.skipped_items`). -/
structure AggState where
  tasks : List RenameTask
  skipped : List PhotoInfo
deriving DecidableEq

/-- `str(Path)` of a destination component list. -/
def destStr (d : List String) : String := String.intercalate "/" d

/-- The collision error message of organizer.py line 243. -/
def destMsg (d : List String) : String := "Destination already exists: " ++ destStr d

/-- One iteration of the completion-draining loop of
`PhotoOrganizer._prepare_rename_tasks` (organizer.py lines 225-246): a
raised per-file exception becomes a skipped item carrying its
description; otherwise the destination is validated against the disk
(idempotent silent drop, collision skip, or acceptance). -/
def processPhoto (env : Env) (dst : List String) (st : AggState) (photo : Photo) : AggState :=
  match _get_rename_task env dst photo with
  | .error e => ⟨st.tasks, st.skipped ++ [⟨photo, none, none, [e]⟩]⟩
  | .ok rt =>
    if env.pathExists rt.destination then
      if env.samefile rt.destination rt.photo_info.path then st
      else
        ⟨st.tasks,
          st.skipped ++ [{ rt.photo_info with errors := rt.photo_info.errors ++ [destMsg rt.destination] }]⟩
    else ⟨st.tasks ++ [rt], st.skipped⟩

/-- The candidate filter of organizer.py line 212:
`p.suffix.lower() in self.allowed_exts`. -/
def isAllowedExt (p : Photo) : Bool :=
  decide (strLower (pathSuffix p.name) ∈ allowed_exts)

/-- The filtered candidate list of organizer.py line 212. -/
def candidates (paths : List Photo) : List Photo := paths.filter isAllowedExt

/-- `PhotoOrganizer._prepare_rename_tasks` (organizer.py lines 210-252)
without cancellation: every submitted future is drained exactly once and
folded into the two output collections.  The completion order of the
thread pool is immaterial to the claims checked here (they are
membership and count properties); the fold processes candidates in list
order. -/
def prepare_rename_tasks (env : Env) (dst : List String) (paths : List Photo) : AggState :=
  (candidates paths).foldl (processPhoto env dst) ⟨[], []⟩

/-- Number of occurrences of candidate `p` across the two output lists
(matching on the source path). -/
def occCount (st : AggState) (p : Photo) : Nat :=
  st.tasks.countP (fun t => decide (t.photo_info.path = p)) +
    st.skipped.countP (fun i => decide (i.path = p))

/-- The idempotent-no-op condition of organizer.py lines 237-241: the
computed destination exists and is the same underlying file as the
source. -/
def isDropped (env : Env) (dst : List String) (q : Photo) : Bool :=
  match _get_rename_task env dst q with
  | .ok rt => env.pathExists rt.destination && env.samefile rt.destination rt.photo_info.path
  | .error _ => false

/-- A destination root used by concrete instances. -/
def dstC : List String := ["dst"]

/-- A screenshot-category source file (`.png` at a root directory). -/
def pA : Photo := ⟨[], "a.png"⟩

/-- A second, distinct screenshot-category source file. -/
def pB : Photo := ⟨[], "b.png"⟩

/-- An image-category source file (`.jpg`). -/
def pJ : Photo := ⟨[], "a.jpg"⟩

/-- The image file of the spec scenario, in a non-screenshot folder. -/
def pI : Photo := ⟨["photos"], "IMG_1234.jpg"⟩

/-- An image-extension file inside a `Screenshots` folder. -/
def pS : Photo := ⟨["Screenshots"], "b.jpg"⟩

/-- A fixed civil mtime shared by the concrete environments. -/
def baseCivil : Civil := ⟨2020, 1, 1, 0, 0, 0⟩

/-- Concrete run environment: empty destination tree (nothing exists on
disk yet), fixed mtime, fixed digest, decoders unused. -/
def envC : Env where
  content := fun _ => []
  sha1Hex := fun _ => "0123456789abcdef0123456789abcdef01234567"
  mtimeCivil := fun _ => baseCivil
  exifTags := fun _ => .error "OSError: unused"
  mediaGeneral := fun _ => .error "OSError: unused"
  toLocalCivil := fun d => d.civil
  pathExists := fun _ => false
  samefile := fun _ _ => false

/-- Environment where every computed destination already exists and is
the same underlying file as the source (idempotent situation). -/
def envD : Env := { envC with pathExists := fun _ => true, samefile := fun _ _ => true }

/-- Environment where every computed destination already exists but is a
different file (on-disk collision situation). -/
def envF : Env := { envC with pathExists := fun _ => true }

/-- EXIF dictionary with all three datetime tags present and pairwise
different, `DateTimeOriginal` being the empty string. -/
def exifE : List (String × String) :=
  [("DateTimeOriginal", ""), ("DateTimeDigitized", "2020:01:02 03:04:05"),
   ("DateTime", "2021:01:02 03:04:05")]

/-- Environment whose EXIF decoder returns `exifE`. -/
def envE : Env := { envC with exifTags := fun _ => .ok exifE }

/-- EXIF dictionary of the spec scenario. -/
def exifW : List (String × String) := [("DateTimeOriginal", "2021:03:15 10:20:30")]

/-- Environment of the spec scenario: EXIF `DateTimeOriginal` present,
digest beginning `abc1234`. -/
def envW : Env :=
  { envC with
    exifTags := fun _ => .ok exifW
    sha1Hex := fun _ => "abc1234def5678900000000000000000000000000" }

/-- EXIF dictionary whose only datetime tag carries trailing padding
after the fixed-width prefix. -/
def exifP : List (String × String) := [("DateTime", "2021:03:15 10:20:30##")]

/-- Environment whose EXIF decoder returns `exifP`. -/
def envP : Env := { envW with exifTags := fun _ => .ok exifP }

/-- Environment whose EXIF decoder raises (per-file decode failure). -/
def envX : Env := { envC with exifTags := fun _ => .error "OSError: cannot identify image file" }

/-- The mtime-resolved timestamp of the concrete environments. -/
def dtA : DT := ⟨baseCivil, some tzName⟩

/-- The resolved record for `pA` under `envC`-family environments. -/
def infoA : PhotoInfo := ⟨pA, some dtA, some "mtime", []⟩

/-- The rename task computed for `pA` under `envC`-family environments. -/
def rtA : RenameTask := ⟨infoA, ["dst", "2020", "SS_20200101_000000_0123456.png"]⟩

/-- The spec-scenario timestamp. -/
def dtI : DT := ⟨⟨2021, 3, 15, 10, 20, 30⟩, some tzName⟩

/-- The spec-scenario rename task for `pI` under `envW`. -/
def rtI : RenameTask :=
  ⟨⟨pI, some dtI, some "EXIF", []⟩, ["dst", "2021", "IMG_20210315_102030_abc1234.jpg"]⟩

/-! ### Helper lemmas: the resolver preserves the source path -/

theorem get_info_from_file_path (env : Env) (photo : Photo) :
    (get_info_from_file env photo).path = photo := rfl

theorem get_info_from_pillow_path (env : Env) (photo : Photo) (info : PhotoInfo)
    (h : get_info_from_pillow env photo = .ok info) : info.path = photo := by
  unfold get_info_from_pillow at h
  split at h
  · exact Except.noConfusion h
  · split at h
    · exact Except.ok.inj h ▸ rfl
    · split at h
      · exact Except.ok.inj h ▸ rfl
      · split at h
        · exact Except.noConfusion h
        · split at h
          · exact Except.noConfusion h
          · exact Except.ok.inj h ▸ rfl

theorem get_info_from_mediainfo_path (env : Env) (photo : Photo) (info : PhotoInfo)
    (h : get_info_from_mediainfo env photo = .ok info) : info.path = photo := by
  unfold get_info_from_mediainfo at h
  split at h
  · exact Except.noConfusion h
  · split at h
    · split at h
      · exact Except.noConfusion h
      · exact Except.ok.inj h ▸ rfl
    · split at h
      · split at h
        · split at h
          · exact Except.noConfusion h
          · exact Except.ok.inj h ▸ rfl
        · exact Except.noConfusion h
      · exact Except.ok.inj h ▸ rfl

theorem validate_info_ok (info info' : PhotoInfo)
    (h : validate_info info = .ok info') : info' = info := by
  unfold validate_info at h
  split at h
  · exact (Except.ok.inj h).symm
  · split at h
    · exact Except.noConfusion h
    · split at h
      · exact (Except.ok.inj h).symm
      · exact Except.noConfusion h

theorem validate_chain_ok (r : Except String PhotoInfo) (info : PhotoInfo)
    (h : validate_chain r = .ok info) : r = .ok info := by
  unfold validate_chain at h
  split at h
  · exact Except.noConfusion h
  · rename_i x0 val
    exact congrArg Except.ok (validate_info_ok val info h).symm

theorem get_info_path (env : Env) (photo : Photo) (info : PhotoInfo)
    (h : get_info env photo = .ok info) : info.path = photo := by
  unfold get_info at h
  replace h := validate_chain_ok _ _ h
  split at h
  · exact get_info_from_pillow_path env photo info h
  · split at h
    · exact get_info_from_mediainfo_path env photo info h
    · split at h
      · exact Except.ok.inj h ▸ rfl
      · exact Except.noConfusion h

/-! ### Helper lemmas: shape of an accepted rename task -/

theorem rename_task_spec (env : Env) (dst : List String) (photo : Photo) (rt : RenameTask)
    (h : _get_rename_task env dst photo = .ok rt) :
    rt.photo_info.path = photo ∧
      ∃ dt, rt.photo_info.datetime = some dt ∧
        rt.destination =
          dst ++ [toString dt.civil.year, get_deterministic_filename env photo dt (pfxFor photo)] := by
  unfold _get_rename_task at h
  split at h
  · exact Except.noConfusion h
  · rename_i info heq
    split at h
    · exact Except.noConfusion h
    · rename_i dt hdt
      refine ⟨?_, dt, ?_, ?_⟩
      · rw [← Except.ok.inj h]
        exact get_info_path env photo info heq
      · rw [← Except.ok.inj h]
        exact hdt
      · rw [← Except.ok.inj h]

/-! ### Helper lemmas: counting occurrences across the two output lists -/

theorem occCount_processPhoto (env : Env) (dst : List String) (st : AggState)
    (q p : Photo) :
    occCount (processPhoto env dst st q) p =
      occCount st p + (if p = q ∧ isDropped env dst q = false then 1 else 0) := by
  unfold processPhoto isDropped
  cases h : _get_rename_task env dst q with
  | error e =>
    by_cases hpq : p = q
    · subst hpq
      simp [occCount]
      omega
    · have hqp : q ≠ p := fun hh => hpq hh.symm
      simp [occCount, hpq, hqp]
  | ok rt =>
    have hpath : rt.photo_info.path = q := (rename_task_spec env dst q rt h).1
    by_cases hex : env.pathExists rt.destination
    · by_cases hsf : env.samefile rt.destination rt.photo_info.path
      · simp [occCount, hex, hsf]
      · rw [hpath] at hsf
        by_cases hpq : p = q
        · subst hpq
          simp [occCount, hex, hsf, hpath]
          omega
        · have hqp : q ≠ p := fun hh => hpq hh.symm
          simp [occCount, hex, hsf, hpath, hpq, hqp]
    · by_cases hpq : p = q
      · subst hpq
        simp [occCount, hex, hpath]
        omega
      · have hqp : q ≠ p := fun hh => hpq hh.symm
        simp [occCount, hex, hpath, hpq, hqp]

theorem occCount_foldl (env : Env) (dst : List String) (qs : List Photo)
    (st : AggState) (p : Photo) :
    occCount (qs.foldl (processPhoto env dst) st) p =
      occCount st p +
        qs.countP (fun q => decide (q = p) && !(isDropped env dst q)) := by
  induction qs generalizing st with
  | nil => simp
  | cons a l ih =>
    rw [List.foldl_cons, ih, occCount_processPhoto, List.countP_cons]
    by_cases hpa : p = a
    · subst hpa
      by_cases hd : isDropped env dst p
      · simp [hd]
      · simp [hd]
        omega
    · have hap : a ≠ p := fun hh => hpa hh.symm
      simp [hpa, hap]

theorem countP_eq_single (l : List Photo) (f : Photo → Bool) (p : Photo)
    (hnd : l.Nodup) (hp : p ∈ l) :
    l.countP (fun q => decide (q = p) && f q) = if f p then 1 else 0 := by
  induction l with
  | nil => cases hp
  | cons a l ih =>
    rw [List.countP_cons]
    rcases List.mem_cons.mp hp with hpa | hpl
    · subst hpa
      have hnotin : p ∉ l := (List.nodup_cons.mp hnd).1
      have hzero : l.countP (fun q => decide (q = p) && f q) = 0 := by
        rw [List.countP_eq_zero]
        intro q hq
        have : q ≠ p := fun hh => hnotin (hh ▸ hq)
        simp [this]
      rw [hzero]
      by_cases hf : f p <;> simp [hf]
    · have hap : a ≠ p := by
        intro hh
        exact (List.nodup_cons.mp hnd).1 (hh ▸ hpl)
      rw [ih (List.nodup_cons.mp hnd).2 hpl]
      simp [hap]

theorem occCount_prepare (env : Env) (dst : List String) (paths : List Photo)
    (p : Photo) (hnd : (candidates paths).Nodup) (hp : p ∈ candidates paths) :
    occCount (prepare_rename_tasks env dst paths) p =
      if isDropped env dst p then 0 else 1 := by
  unfold prepare_rename_tasks
  rw [occCount_foldl]
  rw [countP_eq_single (candidates paths) (fun q => !(isDropped env dst q)) p hnd hp]
  by_cases hd : isDropped env dst p <;> simp [occCount, hd]

/-! ### Helper lemmas: skipped items are only ever appended -/

theorem processPhoto_skipped_mono (env : Env) (dst : List String) (st : AggState)
    (q : Photo) (i : PhotoInfo) (h : i ∈ st.skipped) :
    i ∈ (processPhoto env dst st q).skipped := by
  unfold processPhoto
  cases _get_rename_task env dst q with
  | error e => simp [h]
  | ok rt =>
    by_cases hex : env.pathExists rt.destination
    · by_cases hsf : env.samefile rt.destination rt.photo_info.path
      · simp [hex, hsf, h]
      · simp [hex, hsf, h]
    · simp [hex, h]

theorem foldl_skipped_mono (env : Env) (dst : List String) (qs : List Photo)
    (st : AggState) (i : PhotoInfo) (h : i ∈ st.skipped) :
    i ∈ (qs.foldl (processPhoto env dst) st).skipped := by
  induction qs generalizing st with
  | nil => exact h
  | cons a l ih => exact ih _ (processPhoto_skipped_mono env dst st a i h)

theorem error_skip_mem (env : Env) (dst : List String) (paths : List Photo)
    (p : Photo) (e : String) (hp : p ∈ candidates paths)
    (herr : _get_rename_task env dst p = .error e) :
    (⟨p, none, none, [e]⟩ : PhotoInfo) ∈ (prepare_rename_tasks env dst paths).skipped := by
  unfold prepare_rename_tasks
  obtain ⟨l1, l2, hsplit⟩ := List.append_of_mem hp
  rw [hsplit, List.foldl_append, List.foldl_cons]
  apply foldl_skipped_mono
  unfold processPhoto
  rw [herr]
  simp

theorem collision_skip_mem (env : Env) (dst : List String) (paths : List Photo)
    (p : Photo) (rt : RenameTask) (hp : p ∈ candidates paths)
    (hok : _get_rename_task env dst p = .ok rt)
    (hex : env.pathExists rt.destination = true)
    (hsf : env.samefile rt.destination rt.photo_info.path = false) :
    ∃ i ∈ (prepare_rename_tasks env dst paths).skipped,
      i.path = p ∧ destMsg rt.destination ∈ i.errors := by
  refine ⟨{ rt.photo_info with errors := rt.photo_info.errors ++ [destMsg rt.destination] },
    ?_, (rename_task_spec env dst p rt hok).1, by simp⟩
  unfold prepare_rename_tasks
  obtain ⟨l1, l2, hsplit⟩ := List.append_of_mem hp
  rw [hsplit, List.foldl_append, List.foldl_cons]
  apply foldl_skipped_mono
  unfold processPhoto
  rw [hok]
  simp [hex, hsf]

theorem no_task_entry (st : AggState) (p : Photo)
    (hocc : occCount st p ≤ 1)
    (hskip : ∃ i ∈ st.skipped, i.path = p) :
    ∀ t ∈ st.tasks, t.photo_info.path ≠ p := by
  intro t ht hpath
  have h1 : 0 < st.tasks.countP (fun t => decide (t.photo_info.path = p)) :=
    List.countP_pos_iff.mpr ⟨t, ht, by simp [hpath]⟩
  have h2 : 0 < st.skipped.countP (fun i => decide (i.path = p)) := by
    obtain ⟨i, hi, hip⟩ := hskip
    exact List.countP_pos_iff.mpr ⟨i, hi, by simp [hip]⟩
  unfold occCount at hocc
  omega

/-! ### Helper lemmas: the EXIF datetime selection and parse pipeline -/

theorem chain_dto (exif : List (String × String)) (s : String)
    (hdto : lookupTag exif "DateTimeOriginal" = some s) (hs : s ≠ "") :
    chainSelect exif = some s := by
  unfold chainSelect
  rw [hdto]
  unfold pyOr
  simp [hs]

theorem pillow_sel (env : Env) (photo : Photo) (exif : List (String × String))
    (s0 : String) (d : DT) (htags : env.exifTags photo = .ok exif)
    (hne : exif ≠ []) (hsel : chainSelect exif = some s0)
    (hparse : isoparse (exifFix s0) = some d) (hnaive : d.tz = none) :
    get_info_from_pillow env photo = .ok ⟨photo, some ⟨d.civil, some tzName⟩, some "EXIF", []⟩ := by
  unfold get_info_from_pillow
  rw [htags]
  simp only [if_neg hne, hsel, hparse]
  unfold tz_localize
  rw [hnaive]

theorem data_append (s t : String) : (s ++ t).toList = s.toList ++ t.toList := rfl

theorem strLength_eq (s : String) : s.length = s.toList.length := rfl

theorem exifFix_append_of_length (s pad : String) (hlen : s.length = 19) :
    exifFix (s ++ pad) = exifFix s := by
  unfold exifFix
  rw [data_append]
  rw [show (19 : Nat) = s.toList.length from (strLength_eq s ▸ hlen).symm]
  rw [List.take_left, List.take_length]

theorem exifFix_of_length (s : String) (hlen : s.length = 19) :
    exifFix s = ⟨replaceN ':' '-' 2 s.toList⟩ := by
  unfold exifFix
  rw [show (19 : Nat) = s.toList.length from (strLength_eq s ▸ hlen).symm]
  rw [List.take_length]

/-! ### Claim theorems -/

/-- C1 counterexample: a single candidate whose computed destination
already exists and is the same underlying file ends up in neither
output list, so the two lists do not partition the candidates (the
candidate appears in "neither", contradicting "never neither"). -/
theorem partition_counterexample :
    pA ∈ candidates [pA] ∧
      prepare_rename_tasks envD dstC [pA] = ⟨[], []⟩ :=
  ⟨by decide, rfl⟩

/-- C1 (amended): every candidate appears at most once across the final
rename-task and skipped-item lists, and exactly once unless its computed
destination exists on disk and is the same underlying file as the source
(the idempotent silent drop), in which case it appears in neither. -/
theorem candidate_partition_unless_dropped (env : Env) (dst : List String)
    (paths : List Photo) (p : Photo)
    (hnd : (candidates paths).Nodup) (hp : p ∈ candidates paths) :
    occCount (prepare_rename_tasks env dst paths) p =
      if isDropped env dst p then 0 else 1 :=
  occCount_prepare env dst paths p hnd hp

/-- C1 witness: the amended partition property evaluated on a concrete
one-candidate run (the idempotent case, count 0). -/
theorem candidate_partition_unless_dropped_witness :
    (candidates [pA]).Nodup ∧ pA ∈ candidates [pA] ∧
      occCount (prepare_rename_tasks envD dstC [pA]) pA =
        if isDropped envD dstC pA then 0 else 1 :=
  ⟨by decide, by decide,
    candidate_partition_unless_dropped envD dstC [pA] pA (by decide) (by decide)⟩

/-- C4: a candidate whose computed destination exists and refers to the
same underlying file as the source produces neither a RenameTask nor a
SkippedItem — the silent idempotent no-op. -/
theorem idempotent_silent_noop (env : Env) (dst : List String)
    (paths : List Photo) (p : Photo) (rt : RenameTask)
    (hnd : (candidates paths).Nodup) (hp : p ∈ candidates paths)
    (hok : _get_rename_task env dst p = .ok rt)
    (hex : env.pathExists rt.destination = true)
    (hsf : env.samefile rt.destination rt.photo_info.path = true) :
    (∀ t ∈ (prepare_rename_tasks env dst paths).tasks, t.photo_info.path ≠ p) ∧
      (∀ i ∈ (prepare_rename_tasks env dst paths).skipped, i.path ≠ p) := by
  have hdrop : isDropped env dst p = true := by
    unfold isDropped
    rw [hok]
    simp [hex, hsf]
  have hocc := occCount_prepare env dst paths p hnd hp
  rw [hdrop, if_pos rfl] at hocc
  unfold occCount at hocc
  constructor
  · intro t ht hpath
    have : 0 < (prepare_rename_tasks env dst paths).tasks.countP
        (fun t => decide (t.photo_info.path = p)) :=
      List.countP_pos_iff.mpr ⟨t, ht, by simp [hpath]⟩
    omega
  · intro i hi hpath
    have : 0 < (prepare_rename_tasks env dst paths).skipped.countP
        (fun i => decide (i.path = p)) :=
      List.countP_pos_iff.mpr ⟨i, hi, by simp [hpath]⟩
    omega

/-- C4 witness: the idempotent no-op evaluated on a concrete
one-candidate run. -/
theorem idempotent_silent_noop_witness :
    _get_rename_task envD dstC pA = .ok rtA ∧
      (∀ t ∈ (prepare_rename_tasks envD dstC [pA]).tasks, t.photo_info.path ≠ pA) ∧
      (∀ i ∈ (prepare_rename_tasks envD dstC [pA]).skipped, i.path ≠ pA) :=
  ⟨rfl, idempotent_silent_noop envD dstC [pA] pA rtA (by decide) (by decide) rfl rfl rfl⟩

/-- C9: a candidate whose per-file processing raises is recorded as a
SkippedItem whose single error is the raised description, and every
other candidate is still processed normally (the amended partition
equation continues to hold for them). -/
theorem per_file_error_isolated (env : Env) (dst : List String)
    (paths : List Photo) (p : Photo) (e : String)
    (hnd : (candidates paths).Nodup) (hp : p ∈ candidates paths)
    (herr : _get_rename_task env dst p = .error e) :
    ((⟨p, none, none, [e]⟩ : PhotoInfo) ∈ (prepare_rename_tasks env dst paths).skipped) ∧
      (∀ q ∈ candidates paths, q ≠ p →
        occCount (prepare_rename_tasks env dst paths) q =
          if isDropped env dst q then 0 else 1) :=
  ⟨error_skip_mem env dst paths p e hp herr,
    fun q hq _ => occCount_prepare env dst paths q hnd hq⟩

/-- C9 witness: a run with one failing decode (`pJ`) and one healthy
candidate (`pA`). -/
theorem per_file_error_isolated_witness :
    ((⟨pJ, none, none, ["OSError: cannot identify image file"]⟩ : PhotoInfo) ∈
        (prepare_rename_tasks envX dstC [pJ, pA]).skipped) ∧
      (∀ q ∈ candidates [pJ, pA], q ≠ pJ →
        occCount (prepare_rename_tasks envX dstC [pJ, pA]) q =
          if isDropped envX dstC q then 0 else 1) :=
  per_file_error_isolated envX dstC [pJ, pA] pJ "OSError: cannot identify image file"
    (by decide) (by decide) rfl

/-- The rename task computed for `pB` under `envC`-family environments
(its destination collides with that of `pA`). -/
def rtB : RenameTask :=
  ⟨⟨pB, some dtA, some "mtime", []⟩, ["dst", "2020", "SS_20200101_000000_0123456.png"]⟩

/-- C3 counterexample: two distinct candidates whose computed
destinations collide with each other but do not exist on disk are BOTH
accepted as RenameTasks (to the same destination) and neither is
skipped — the existence check only consults the filesystem, and
planning creates no files. -/
theorem collision_counterexample :
    pA ≠ pB ∧
      (prepare_rename_tasks envC dstC [pA, pB]).skipped = [] ∧
      (prepare_rename_tasks envC dstC [pA, pB]).tasks.map (fun t => t.destination) =
        [["dst", "2020", "SS_20200101_000000_0123456.png"],
         ["dst", "2020", "SS_20200101_000000_0123456.png"]] :=
  ⟨by decide, rfl, rfl⟩

/-- C3 (amended): when two distinct candidates compute destination paths
that equal an existing on-disk file which is not the same underlying
file as either source, both become SkippedItems carrying the
collision-description error and neither produces a RenameTask.
(Collisions are detected only against the existing filesystem: if the
shared destination does not yet exist, both files are accepted.) -/
theorem collision_both_skipped (env : Env) (dst : List String)
    (paths : List Photo) (p1 p2 : Photo) (rt1 rt2 : RenameTask)
    (hnd : (candidates paths).Nodup)
    (h1 : p1 ∈ candidates paths) (h2 : p2 ∈ candidates paths)
    (hok1 : _get_rename_task env dst p1 = .ok rt1)
    (hok2 : _get_rename_task env dst p2 = .ok rt2)
    (hdest : rt1.destination = rt2.destination)
    (hex : env.pathExists rt1.destination = true)
    (hsf1 : env.samefile rt1.destination rt1.photo_info.path = false)
    (hsf2 : env.samefile rt2.destination rt2.photo_info.path = false) :
    (∃ i ∈ (prepare_rename_tasks env dst paths).skipped,
        i.path = p1 ∧ destMsg rt1.destination ∈ i.errors) ∧
      (∃ i ∈ (prepare_rename_tasks env dst paths).skipped,
        i.path = p2 ∧ destMsg rt2.destination ∈ i.errors) ∧
      (∀ t ∈ (prepare_rename_tasks env dst paths).tasks,
        t.photo_info.path ≠ p1 ∧ t.photo_info.path ≠ p2) := by
  have hex2 : env.pathExists rt2.destination = true := hdest ▸ hex
  have hskip1 := collision_skip_mem env dst paths p1 rt1 h1 hok1 hex hsf1
  have hskip2 := collision_skip_mem env dst paths p2 rt2 h2 hok2 hex2 hsf2
  have hocc1 : occCount (prepare_rename_tasks env dst paths) p1 ≤ 1 := by
    rw [occCount_prepare env dst paths p1 hnd h1]
    split <;> omega
  have hocc2 : occCount (prepare_rename_tasks env dst paths) p2 ≤ 1 := by
    rw [occCount_prepare env dst paths p2 hnd h2]
    split <;> omega
  have hno1 := no_task_entry (prepare_rename_tasks env dst paths) p1 hocc1
    (hskip1.imp (fun i hi => ⟨hi.1, hi.2.1⟩))
  have hno2 := no_task_entry (prepare_rename_tasks env dst paths) p2 hocc2
    (hskip2.imp (fun i hi => ⟨hi.1, hi.2.1⟩))
  exact ⟨hskip1, hskip2, fun t ht => ⟨hno1 t ht, hno2 t ht⟩⟩

/-- C3 witness: a concrete run where both candidates collide with the
same pre-existing destination file. -/
theorem collision_both_skipped_witness :
    _get_rename_task envF dstC pA = .ok rtA ∧ _get_rename_task envF dstC pB = .ok rtB ∧
      rtA.destination = rtB.destination ∧
      (∃ i ∈ (prepare_rename_tasks envF dstC [pA, pB]).skipped,
        i.path = pA ∧ destMsg rtA.destination ∈ i.errors) ∧
      (∃ i ∈ (prepare_rename_tasks envF dstC [pA, pB]).skipped,
        i.path = pB ∧ destMsg rtB.destination ∈ i.errors) ∧
      (∀ t ∈ (prepare_rename_tasks envF dstC [pA, pB]).tasks,
        t.photo_info.path ≠ pA ∧ t.photo_info.path ≠ pB) := by
  have h := collision_both_skipped envF dstC [pA, pB] pA pB rtA rtB
    (by decide) (by decide) (by decide) rfl rfl rfl rfl rfl rfl
  exact ⟨rfl, rfl, rfl, h.1, h.2.1, h.2.2⟩

/-! ### Helper lemma: the validation forces the configured timezone -/

theorem validate_info_tz (info info' : PhotoInfo) (h : validate_info info = .ok info')
    (d : DT) (hd : info'.datetime = some d) : d.tz = some tzName := by
  have heq : info' = info := validate_info_ok info info' h
  subst heq
  unfold validate_info at h
  split at h
  · rename_i hnone
    rw [hnone] at hd
    exact Option.noConfusion hd
  · rename_i d0 hsome
    rw [hsome] at hd
    have hdd : d0 = d := Option.some.inj hd
    subst hdd
    split at h
    · exact Except.noConfusion h
    · rename_i z hz
      split at h
      · rename_i hzt
        rw [hz, hzt]
      · exact Except.noConfusion h

/-- C6: every non-empty resolved timestamp that survives `get_info`
carries exactly the configured timezone, and any resolved timestamp
carrying no timezone or a different one makes the validation return its
failure branch (a raised assertion) instead of passing it through. -/
theorem resolved_timezone_invariant :
    (∀ (env : Env) (photo : Photo) (info : PhotoInfo) (d : DT),
        get_info env photo = .ok info → info.datetime = some d → d.tz = some tzName) ∧
      (∀ (info : PhotoInfo) (d : DT), info.datetime = some d → d.tz ≠ some tzName →
        ∃ e, validate_info info = .error e) := by
  constructor
  · intro env photo info d hok hdt
    unfold get_info validate_chain at hok
    split at hok
    · exact Except.noConfusion hok
    · rename_i info0 hheq
      exact validate_info_tz info0 info hok d hdt
  · intro info d hd hne
    cases htz : d.tz with
    | none =>
      simp only [validate_info, hd, htz]
      exact ⟨_, rfl⟩
    | some z =>
      have hzz : z ≠ tzName := fun hh => hne (by rw [htz, hh])
      simp only [validate_info, hd, htz]
      rw [if_neg hzz]
      exact ⟨_, rfl⟩

/-- A resolved record carrying a naive timestamp, for exercising the
validation failure branch. -/
def infoBad : PhotoInfo := ⟨pA, some ⟨baseCivil, none⟩, some "EXIF", []⟩

/-- The resolved record `get_info` returns for `pA` under `envC`. -/
theorem get_info_envC_pA : get_info envC pA = .ok infoA := rfl

/-- C6 witness: both halves of the timezone invariant at concrete
inputs. -/
theorem resolved_timezone_invariant_witness :
    dtA.tz = some tzName ∧ ∃ e, validate_info infoBad = .error e :=
  ⟨resolved_timezone_invariant.1 envC pA infoA dtA rfl rfl,
    resolved_timezone_invariant.2 infoBad ⟨baseCivil, none⟩ rfl (by decide)⟩

/-- C5 counterexample: all three EXIF datetime tags present with
pairwise different values, but `DateTimeOriginal` is the (falsy) empty
string: Python `or` falls through, the returned timestamp is the parse
of `DateTimeDigitized` (year 2020), and `DateTimeOriginal` has no parse
at all — the fixed-order "first present tag wins" reading fails. -/
theorem dto_fallback_counterexample :
    lookupTag exifE "DateTimeOriginal" = some "" ∧
      lookupTag exifE "DateTimeDigitized" = some "2020:01:02 03:04:05" ∧
      lookupTag exifE "DateTime" = some "2021:01:02 03:04:05" ∧
      isoparse (exifFix "") = none ∧
      get_info_from_pillow envE pJ =
        .ok ⟨pJ, some ⟨⟨2020, 1, 2, 3, 4, 5⟩, some tzName⟩, some "EXIF", []⟩ :=
  ⟨rfl, rfl, rfl, rfl, rfl⟩

/-- C5 (amended): when the EXIF dictionary carries a NON-EMPTY (truthy)
`DateTimeOriginal` value, the resolved timestamp is the localized parse
of that value, whatever the other two tags hold; the chain consults
`DateTimeOriginal`, then `DateTimeDigitized`, then `DateTime`, the first
truthy value winning. -/
theorem dto_first_when_truthy (env : Env) (photo : Photo)
    (exif : List (String × String)) (s : String) (d : DT)
    (htags : env.exifTags photo = .ok exif) (hne : exif ≠ [])
    (hdto : lookupTag exif "DateTimeOriginal" = some s) (hs : s ≠ "")
    (hparse : isoparse (exifFix s) = some d) (hnaive : d.tz = none) :
    get_info_from_pillow env photo =
      .ok ⟨photo, some ⟨d.civil, some tzName⟩, some "EXIF", []⟩ :=
  pillow_sel env photo exif s d htags hne (chain_dto exif s hdto hs) hparse hnaive

/-- C5 witness: the amended fallback rule on the concrete scenario
dictionary. -/
theorem dto_first_when_truthy_witness :
    ("2021:03:15 10:20:30" : String) ≠ "" ∧
      get_info_from_pillow envW pJ =
        .ok ⟨pJ, some ⟨⟨2021, 3, 15, 10, 20, 30⟩, some tzName⟩, some "EXIF", []⟩ :=
  ⟨by decide,
    dto_first_when_truthy envW pJ exifW "2021:03:15 10:20:30"
      ⟨⟨2021, 3, 15, 10, 20, 30⟩, none⟩ rfl (by decide) rfl (by decide) rfl rfl⟩

/-- C7: a tag value selected by the fallback chain is truncated to its
first 19 characters (so trailing padding after the fixed-width
`YYYY:MM:DD HH:MM:SS` prefix is irrelevant), has only its first two
`:` replaced by `-`, is parsed as ISO, and the naive parse is localized
to the configured timezone. -/
theorem exif_truncate_parse_localize (env : Env) (photo : Photo)
    (exif : List (String × String)) (s pad : String) (d : DT)
    (htags : env.exifTags photo = .ok exif) (hne : exif ≠ [])
    (hsel : chainSelect exif = some (s ++ pad)) (hlen : s.length = 19)
    (hparse : isoparse (exifFix s) = some d) (hnaive : d.tz = none) :
    exifFix (s ++ pad) = exifFix s ∧
      exifFix s = ⟨replaceN ':' '-' 2 s.toList⟩ ∧
      get_info_from_pillow env photo =
        .ok ⟨photo, some ⟨d.civil, some tzName⟩, some "EXIF", []⟩ := by
  have h1 := exifFix_append_of_length s pad hlen
  refine ⟨h1, exifFix_of_length s hlen, ?_⟩
  exact pillow_sel env photo exif (s ++ pad) d htags hne hsel
    (by rw [h1]; exact hparse) hnaive

/-- C7 witness: a concrete padded tag value
`2021:03:15 10:20:30##` resolves exactly like the unpadded one. -/
theorem exif_truncate_parse_localize_witness :
    ("2021:03:15 10:20:30" : String).length = 19 ∧
      exifFix ("2021:03:15 10:20:30" ++ "##") = exifFix "2021:03:15 10:20:30" ∧
      get_info_from_pillow envP pJ =
        .ok ⟨pJ, some ⟨⟨2021, 3, 15, 10, 20, 30⟩, some tzName⟩, some "EXIF", []⟩ := by
  have h := exif_truncate_parse_localize envP pJ exifP "2021:03:15 10:20:30" "##"
    ⟨⟨2021, 3, 15, 10, 20, 30⟩, none⟩ rfl (by decide) rfl (by decide) rfl rfl
  exact ⟨by decide, h.1, h.2.2⟩

/-- C2: the spec scenario — `IMG_1234.jpg` (not inside a `Screenshots`
folder) with EXIF `DateTimeOriginal = 2021:03:15 10:20:30` and content
fingerprint `abc1234` plans destination
`dst / 2021 / IMG_20210315_102030_abc1234.jpg`: default prefix, then
`YYYYMMDD_HHMMSS` timestamp, underscore, 7-character fingerprint,
lowercased original extension, inside the four-digit-year directory. -/
theorem scenario_img_destination (env : Env) (dst : List String)
    (dirs : List String) (exif : List (String × String))
    (hpar : dirs.getLastD "" ≠ "Screenshots")
    (htags : env.exifTags ⟨dirs, "IMG_1234.jpg"⟩ = .ok exif)
    (hne : exif ≠ [])
    (hdto : lookupTag exif "DateTimeOriginal" = some "2021:03:15 10:20:30")
    (hfp : strTake (env.sha1Hex (env.content ⟨dirs, "IMG_1234.jpg"⟩)) 7 = "abc1234") :
    ∃ rt, _get_rename_task env dst ⟨dirs, "IMG_1234.jpg"⟩ = .ok rt ∧
      rt.destination = dst ++ ["2021", "IMG_20210315_102030_abc1234.jpg"] := by
  have hpil : get_info_from_pillow env ⟨dirs, "IMG_1234.jpg"⟩ =
      .ok ⟨⟨dirs, "IMG_1234.jpg"⟩, some ⟨⟨2021, 3, 15, 10, 20, 30⟩, some tzName⟩,
        some "EXIF", []⟩ :=
    pillow_sel env ⟨dirs, "IMG_1234.jpg"⟩ exif "2021:03:15 10:20:30"
      ⟨⟨2021, 3, 15, 10, 20, 30⟩, none⟩ htags hne
      (chain_dto exif "2021:03:15 10:20:30" hdto (by decide)) rfl rfl
  have hscr : is_screenshot ⟨dirs, "IMG_1234.jpg"⟩ = false := by
    unfold is_screenshot parentName
    rw [decide_eq_false hpar, Bool.or_false]
    rfl
  have hinfo : get_info env ⟨dirs, "IMG_1234.jpg"⟩ =
      .ok ⟨⟨dirs, "IMG_1234.jpg"⟩, some ⟨⟨2021, 3, 15, 10, 20, 30⟩, some tzName⟩,
        some "EXIF", []⟩ := by
    unfold get_info
    rw [if_pos (show strLower (pathSuffix "IMG_1234.jpg") ∈ pillow_exts from by decide)]
    rw [hpil]
    rfl
  refine ⟨⟨⟨⟨dirs, "IMG_1234.jpg"⟩, some ⟨⟨2021, 3, 15, 10, 20, 30⟩, some tzName⟩,
      some "EXIF", []⟩, dst ++ ["2021", "IMG_20210315_102030_abc1234.jpg"]⟩, ?_, rfl⟩
  unfold _get_rename_task
  rw [hinfo]
  simp only []
  unfold get_deterministic_filename pfxFor
  rw [hscr, hfp]
  rfl

/-- C2 witness: the scenario evaluated in the concrete environment
`envW`. -/
theorem scenario_img_destination_witness :
    ∃ rt, _get_rename_task envW dstC pI = .ok rt ∧
      rt.destination = dstC ++ ["2021", "IMG_20210315_102030_abc1234.jpg"] :=
  scenario_img_destination envW dstC ["photos"] exifW (by decide) rfl (by decide) rfl rfl

/-- C8: the planner is deterministic — identical file bytes, an
identical hashing function and an identical resolved timestamp yield an
identical destination path, whatever else differs between the two
runs' environments. -/
theorem planner_deterministic (env1 env2 : Env) (dst : List String) (photo : Photo)
    (rt1 rt2 : RenameTask) (dt : DT)
    (hh : env1.sha1Hex = env2.sha1Hex)
    (hc : env1.content photo = env2.content photo)
    (h1 : _get_rename_task env1 dst photo = .ok rt1)
    (h2 : _get_rename_task env2 dst photo = .ok rt2)
    (hd1 : rt1.photo_info.datetime = some dt)
    (hd2 : rt2.photo_info.datetime = some dt) :
    rt1.destination = rt2.destination := by
  obtain ⟨-, dt1, hdt1, hdest1⟩ := rename_task_spec env1 dst photo rt1 h1
  obtain ⟨-, dt2, hdt2, hdest2⟩ := rename_task_spec env2 dst photo rt2 h2
  rw [hdt1] at hd1
  rw [hdt2] at hd2
  obtain rfl := Option.some.inj hd1
  obtain rfl := Option.some.inj hd2
  rw [hdest1, hdest2]
  unfold get_deterministic_filename
  rw [hc, hh]

/-- C8 witness: determinism applied to two identical runs of the
scenario environment. -/
theorem planner_deterministic_witness :
    _get_rename_task envW dstC pI = .ok rtI ∧ rtI.destination = rtI.destination :=
  ⟨rfl, planner_deterministic envW envW dstC pI rtI rtI dtI rfl rfl rfl rfl rfl rfl⟩

/-- C10: a `.jpg`/`.jpeg`/`.heic` file inside a `Screenshots` folder is
resolved through the EXIF (pillow) chain — extension dispatch precedes
the screenshot check — yet its planned filename uses the screenshot
prefix, not the default `IMG_` prefix, because prefix selection consults
the screenshot predicate alone. -/
theorem screenshots_dir_pillow_resolution_screenshot_prefix (env : Env) (photo : Photo)
    (hext : strLower (pathSuffix photo.name) ∈ pillow_exts)
    (hpar : parentName photo = "Screenshots") :
    get_info env photo = validate_chain (get_info_from_pillow env photo) ∧
      pfxFor photo = screenshotPfx ∧ screenshotPfx ≠ defaultPfx := by
  refine ⟨?_, ?_, by decide⟩
  · unfold get_info
    rw [if_pos hext]
  · unfold pfxFor is_screenshot
    rw [hpar]
    simp

/-- C10 witness: the dispatch/prefix split on the concrete photo
`Screenshots/b.jpg`. -/
theorem screenshots_dir_pillow_resolution_screenshot_prefix_witness :
    get_info envW pS = validate_chain (get_info_from_pillow envW pS) ∧
      pfxFor pS = screenshotPfx ∧ screenshotPfx ≠ defaultPfx :=
  screenshots_dir_pillow_resolution_screenshot_prefix envW pS (by decide) rfl
